import Mathlib

/-!
Verification development for the `document-portal` repository.

The repository consists of two near-duplicate scripts, `fix_rag_chain.py` and
`improved_rag_debug.py`, that wire a Retrieval-Augmented Generation pipeline
out of external library components (document loader, text splitter, embedding
model, vector index, prompt template, hosted LLM client).  The definitions
below embed the orchestration logic that is present in the sources (question
loops, prompt assembly, retriever configurations, chain wiring) directly, and
model the externally supplied components (chunking, similarity ranking,
startup validation performed inside library constructors) from the
specification, as flagged in the individual doc comments.

Python strings are modelled as `List Char`; Python exceptions are modelled by
`Except String`; a value that is absent (`None`) is modelled by `Option`.
-/

namespace DocumentPortal

/-- A loaded document or chunk: raw text content plus source metadata (file
path and page number), as produced by the PDF directory loader and carried
through splitting unchanged. -/
structure Document where
  page_content : List Char
  source : List Char
  page : Nat
deriving DecidableEq

/-! ### Chunker

The text splitter itself (`RecursiveCharacterTextSplitter`) is an external
library component; only its configuration (`chunk_size=1000`,
`chunk_overlap=200`, `length_function=len`) appears in the sources
(`fix_rag_chain.py` lines 48-52, `improved_rag_debug.py` lines 42-47). -/

/-- Modelled from the spec: the chunker produces an ordered sequence of
bounded, overlapping windows over the document text — every chunk has at most
`chunkSize` characters, consecutive chunks share `overlap` characters, and
together the chunks cover the whole text (spec sections 3, 4.1 and 8).  The
library's separator preference (paragraph, then line, then sentence, then
space, falling back to raw character cuts) only moves cut points and is
abstracted away here; each chunk advances by `step = chunkSize - overlap`
characters.  `fuel` bounds the recursion and is instantiated with the length
of the text. -/
def splitAux (chunkSize step : Nat) : Nat → List Char → List (List Char)
  | 0, cs => [cs]
  | fuel + 1, cs =>
    if cs.length ≤ chunkSize then [cs]
    else cs.take chunkSize :: splitAux chunkSize step fuel (cs.drop step)

/-- Modelled from the spec: split one document text into chunks of at most
`chunkSize` characters, adjacent chunks sharing `overlap` characters. -/
def splitDoc (chunkSize overlap : Nat) (cs : List Char) : List (List Char) :=
  splitAux chunkSize (chunkSize - overlap) cs.length cs

/-- From `text_splitter.split_documents(docs)`: every loaded document is split
into chunks and each chunk carries its parent document's metadata. -/
def split_documents (chunkSize overlap : Nat) (docs : List Document) : List Document :=
  (docs.map fun d =>
    (splitDoc chunkSize overlap d.page_content).map fun c => { d with page_content := c }).flatten

/-- The non-overlapping reassembly of a chunk list: the first chunk in full,
then every later chunk minus the `overlap` characters it shares with its
predecessor. -/
def dropOverlaps (overlap : Nat) : List (List Char) → List Char
  | [] => []
  | c :: rest => c ++ (rest.map (List.drop overlap)).flatten

/-- Adjacent chunks `a` and `b` share `overlap` characters of content: the
last `overlap` characters of `a` are exactly the first `overlap` characters of
`b`, and `b` is long enough for that shared span to have full length. -/
def sharesOverlap (overlap : Nat) (a b : List Char) : Prop :=
  overlap ≤ b.length ∧ a.drop (a.length - overlap) = b.take overlap

theorem splitAux_length_le (chunkSize step : Nat) :
    ∀ (fuel : Nat) (cs : List Char), cs.length ≤ chunkSize + fuel * step →
      ∀ c ∈ splitAux chunkSize step fuel cs, c.length ≤ chunkSize
  | 0, cs, h, c, hc => by
    simp only [splitAux, List.mem_singleton] at hc
    subst hc
    simpa using h
  | fuel + 1, cs, h, c, hc => by
    by_cases hlen : cs.length ≤ chunkSize
    · simp only [splitAux, if_pos hlen, List.mem_singleton] at hc
      subst hc
      exact hlen
    · simp only [splitAux, if_neg hlen, List.mem_cons] at hc
      rcases hc with hc | hc
      · subst hc
        simp [List.length_take]
      · have h2 : cs.length ≤ chunkSize + fuel * step + step := by
          rw [Nat.succ_mul, ← Nat.add_assoc] at h
          exact h
        have h3 : (cs.drop step).length ≤ chunkSize + fuel * step := by
          rw [List.length_drop]
          omega
        exact splitAux_length_le chunkSize step fuel (cs.drop step) h3 c hc

theorem splitAux_fuel_step (chunkSize step fuel : Nat) (cs : List Char)
    (h : cs.length ≤ chunkSize + (fuel + 1) * step) (_hlen : ¬ cs.length ≤ chunkSize) :
    (cs.drop step).length ≤ chunkSize + fuel * step := by
  have h2 : cs.length ≤ chunkSize + fuel * step + step := by
    rw [Nat.succ_mul, ← Nat.add_assoc] at h
    exact h
  rw [List.length_drop]
  omega

theorem splitAux_head (chunkSize step fuel : Nat) (cs : List Char)
    (h : cs.length ≤ chunkSize + fuel * step) :
    ∃ t, splitAux chunkSize step fuel cs = cs.take chunkSize :: t := by
  cases fuel with
  | zero =>
    refine ⟨[], ?_⟩
    simp only [Nat.zero_mul, Nat.add_zero] at h
    simp [splitAux, List.take_of_length_le h]
  | succ fuel =>
    by_cases hlen : cs.length ≤ chunkSize
    · exact ⟨[], by simp [splitAux, hlen, List.take_of_length_le hlen]⟩
    · exact ⟨splitAux chunkSize step fuel (cs.drop step), by simp [splitAux, hlen]⟩

theorem splitAux_drop_flatten (chunkSize overlap : Nat) (hov : overlap ≤ chunkSize) :
    ∀ (fuel : Nat) (cs : List Char),
      cs.length ≤ chunkSize + fuel * (chunkSize - overlap) →
      ((splitAux chunkSize (chunkSize - overlap) fuel cs).map (List.drop overlap)).flatten =
        cs.drop overlap
  | 0, cs, _ => by simp [splitAux]
  | fuel + 1, cs, h => by
    by_cases hlen : cs.length ≤ chunkSize
    · simp [splitAux, hlen]
    · have h3 := splitAux_fuel_step chunkSize (chunkSize - overlap) fuel cs h hlen
      have IH := splitAux_drop_flatten chunkSize overlap hov fuel (cs.drop (chunkSize - overlap)) h3
      simp only [splitAux, if_neg hlen, List.map_cons, List.flatten_cons]
      rw [IH, List.drop_take, List.drop_drop, Nat.sub_add_cancel hov]
      have e : cs.drop chunkSize = (cs.drop overlap).drop (chunkSize - overlap) := by
        rw [List.drop_drop, Nat.add_sub_cancel' hov]
      rw [e, List.take_append_drop]

theorem dropOverlaps_splitAux (chunkSize overlap : Nat) (hov : overlap ≤ chunkSize)
    (fuel : Nat) (cs : List Char)
    (h : cs.length ≤ chunkSize + fuel * (chunkSize - overlap)) :
    dropOverlaps overlap (splitAux chunkSize (chunkSize - overlap) fuel cs) = cs := by
  cases fuel with
  | zero => simp [splitAux, dropOverlaps]
  | succ fuel =>
    by_cases hlen : cs.length ≤ chunkSize
    · simp [splitAux, hlen, dropOverlaps]
    · have h3 := splitAux_fuel_step chunkSize (chunkSize - overlap) fuel cs h hlen
      have hrest := splitAux_drop_flatten chunkSize overlap hov fuel (cs.drop (chunkSize - overlap)) h3
      simp only [splitAux, if_neg hlen, dropOverlaps]
      rw [hrest, List.drop_drop, Nat.sub_add_cancel hov, List.take_append_drop]

theorem splitDoc_fuel (chunkSize overlap : Nat) (hlt : overlap < chunkSize) (cs : List Char) :
    cs.length ≤ chunkSize + cs.length * (chunkSize - overlap) := by
  have h1 : 1 ≤ chunkSize - overlap := by omega
  have h2 : cs.length * 1 ≤ cs.length * (chunkSize - overlap) := Nat.mul_le_mul_left _ h1
  omega

theorem splitAux_chain (chunkSize overlap : Nat) (hov : overlap ≤ chunkSize) :
    ∀ (fuel : Nat) (cs : List Char),
      cs.length ≤ chunkSize + fuel * (chunkSize - overlap) →
      List.Chain' (sharesOverlap overlap) (splitAux chunkSize (chunkSize - overlap) fuel cs)
  | 0, cs, _ => by simp [splitAux]
  | fuel + 1, cs, h => by
    by_cases hlen : cs.length ≤ chunkSize
    · simp [splitAux, hlen]
    · have h3 := splitAux_fuel_step chunkSize (chunkSize - overlap) fuel cs h hlen
      have IH := splitAux_chain chunkSize overlap hov fuel (cs.drop (chunkSize - overlap)) h3
      obtain ⟨t, ht⟩ := splitAux_head chunkSize (chunkSize - overlap) fuel (cs.drop (chunkSize - overlap)) h3
      have hgt : chunkSize < cs.length := Nat.lt_of_not_le hlen
      simp only [splitAux, if_neg hlen]
      rw [List.chain'_cons']
      refine ⟨?_, IH⟩
      intro y hy
      rw [ht] at hy
      simp only [List.head?_cons, Option.mem_def, Option.some.injEq] at hy
      subst hy
      constructor
      · rw [List.length_take, List.length_drop]
        omega
      · have hlen2 : (cs.take chunkSize).length = chunkSize := by
          rw [List.length_take]
          omega
        rw [hlen2, List.take_take, List.drop_take, Nat.sub_sub_self hov, min_eq_left hov]

/-! ### Prompt assembly -/

/-- The blank-line separator used by `format_docs`. -/
def blankLine : List Char := "\n\n".toList

/-- From `format_docs` (both scripts): join the page contents of the retrieved
documents with a blank-line separator. -/
def format_docs (docs : List Document) : List Char :=
  List.intercalate blankLine (docs.map Document.page_content)

/-- Part of the fixed prompt template of `fix_rag_chain.py` (lines 28-37)
before the context slot. -/
def fixedTemplateHead : List Char :=
  "\nAnswer the question based on the context provided below.\nIf the context does not contain sufficient information, respond with:\n\"I do not have enough information to answer this question\"\n\nContext: ".toList

/-- Part of both prompt templates between the context slot and the question
slot. -/
def templateMid : List Char := "\n\nQuestion: ".toList

/-- Part of both prompt templates after the question slot. -/
def templateTail : List Char := "\n\nAnswer:".toList

/-- Template substitution for the fixed prompt of `fix_rag_chain.py` (lines
79-82): the `PromptTemplate` places the context and the question verbatim into
the two slots of the fixed template text. -/
def renderFixedPrompt (context question : List Char) : List Char :=
  fixedTemplateHead ++ context ++ templateMid ++ question ++ templateTail

/-- Part of the improved prompt template of `improved_rag_debug.py`
(`create_improved_prompt`, lines 57-78) before the context slot. -/
def improvedTemplateHead : List Char :=
  "\nYou are a helpful AI assistant. Answer the question based on the context provided below.\nIf the context does not contain sufficient information to answer the question accurately, respond with:\n\"I do not have enough information to answer this question accurately.\"\n\nGuidelines:\n- Use only the information provided in the context\n- Be specific and detailed in your response\n- If the context contains relevant data, cite it appropriately\n- If the question is not addressed in the context, say so clearly\n- Provide a comprehensive answer based on the available context\n\nContext: ".toList

/-- Template substitution for the improved prompt of `improved_rag_debug.py`. -/
def renderImprovedPrompt (context question : List Char) : List Char :=
  improvedTemplateHead ++ context ++ templateMid ++ question ++ templateTail

/-- The spec's reading of `format_docs`: the page contents joined by the
blank-line separator, written as a direct recursion (used to check
`format_docs` against the spec's words). -/
def joinedBy (sep : List Char) : List (List Char) → List Char
  | [] => []
  | [x] => x
  | x :: y :: t => x ++ sep ++ joinedBy sep (y :: t)

/-! ### Retriever -/

/-- Modelled from the spec (section 4.2): similarity retrieval ranks the
indexed chunks by descending similarity score to the query and returns the
top `k`; the score computation is delegated to the external vector index, so
the score function is an opaque parameter of the model. -/
def similaritySearch (score : Document → Int) (k : Nat) (index : List Document) :
    List Document :=
  (index.insertionSort fun a b => score b ≤ score a).take k

/-! ### RAG chains and question loops -/

/-- From `fix_rag_chain.py` lines 89-94: the fixed RAG chain pipes the
question into the retriever, formats the retrieved documents with
`format_docs`, substitutes context and question into the fixed prompt, and
sends the prompt to the LLM.  The retriever and the LLM are external network
calls that may raise; both are modelled as fallible oracles. -/
def fixChainInvoke (retr : List Char → Except String (List Document))
    (llm : List Char → Except String (List Char)) (q : List Char) :
    Except String (List Char) := do
  let docs ← retr q
  llm (renderFixedPrompt (format_docs docs) q)

/-- From `test_fixed_rag` (lines 114-131): the per-question body of the fix
script's loop.  Inside `try`, it retrieves the documents for the question and
then invokes the chain; any exception is caught and printed, and the question
is left without an answer. -/
def fixLoopStep (retr : List Char → Except String (List Document))
    (llm : List Char → Except String (List Char)) (q : List Char) :
    Option (List Char) :=
  match (do let _ ← retr q; fixChainInvoke retr llm q : Except String (List Char)) with
  | Except.ok a => some a
  | Except.error _ => none

/-- From `test_fixed_rag`: the top-level question loop of `fix_rag_chain.py`;
each question is processed by `fixLoopStep`, which never lets an exception
escape. -/
def test_fixed_rag (retr : List Char → Except String (List Document))
    (llm : List Char → Except String (List Char)) (questions : List (List Char)) :
    List (Option (List Char)) :=
  questions.map (fixLoopStep retr llm)

/-- Retriever selection mode (`search_type`). -/
inductive SearchType
  | similarity
  | mmr
deriving DecidableEq

/-- A retriever configuration as passed to `vectordb.as_retriever`. -/
structure RetrieverConfig where
  k : Nat
  search_type : SearchType
deriving DecidableEq

/-- From `improved_rag_debug.py` lines 97-102: the four hard-coded retriever
configurations probed by `debug_rag_chain`, in source order. -/
def retriever_configs : List RetrieverConfig :=
  [⟨3, SearchType.similarity⟩, ⟨5, SearchType.similarity⟩, ⟨7, SearchType.similarity⟩,
    ⟨3, SearchType.mmr⟩]

/-- From lines 118-121: the configuration used to produce the final answer. -/
def bestConfig : RetrieverConfig := ⟨5, SearchType.similarity⟩

/-- The preview printed for a probe: the first 200 characters of the first
retrieved document, present only when at least one document came back
(lines 110-112). -/
def previewOf (docs : List Document) : Option (List Char) :=
  match docs with
  | [] => none
  | d :: _ => some (d.page_content.take 200)

/-- What `debug_rag_chain` prints for one probe: the configuration, the
result count, and the preview of the first result. -/
structure ProbeReport where
  config : RetrieverConfig
  count : Nat
  preview : Option (List Char)
deriving DecidableEq

/-- One probe of lines 104-112: query the retriever under the given
configuration (an external call, outside any `try`) and report the result
count and the preview. -/
def probeConfig (retr : RetrieverConfig → List Char → Except String (List Document))
    (q : List Char) (c : RetrieverConfig) : Except String ProbeReport := do
  let ds ← retr c q
  pure ⟨c, ds.length, previewOf ds⟩

/-- The diagnostic output of one `debug_rag_chain` call. -/
structure DebugReport where
  probes : List ProbeReport
  retrievedCount : Nat
  contextLength : Nat
  answer : Option (List Char)
deriving DecidableEq

/-- From lines 146-151: the debug script's RAG chain over the best (`k=5`
similarity) retriever and the improved prompt. -/
def debugChainInvoke (retr : RetrieverConfig → List Char → Except String (List Document))
    (llm : List Char → Except String (List Char)) (q : List Char) :
    Except String (List Char) := do
  let docs ← retr bestConfig q
  llm (renderImprovedPrompt (format_docs docs) q)

/-- From `debug_rag_chain` (lines 84-160): probe the four configurations (not
inside any `try`), retrieve with the best configuration (not inside any
`try`), format the context, then invoke the chain inside `try`, so that only
an exception of the final invocation is converted into a `None` answer. -/
def debug_rag_chain (retr : RetrieverConfig → List Char → Except String (List Document))
    (llm : List Char → Except String (List Char)) (q : List Char) :
    Except String DebugReport := do
  let probes ← retriever_configs.mapM (probeConfig retr q)
  let docs ← retr bestConfig q
  let ans := match debugChainInvoke retr llm q with
    | Except.ok a => some a
    | Except.error _ => none
  pure ⟨probes, docs.length, (format_docs docs).length, ans⟩

/-- From `test_different_questions` (lines 162-182): the debug script's
top-level question loop; `debug_rag_chain` is called with no surrounding
`try`, so an exception escaping it aborts the whole run. -/
def test_different_questions (retr : RetrieverConfig → List Char → Except String (List Document))
    (llm : List Char → Except String (List Char)) (questions : List (List Char)) :
    Except String (List DebugReport) :=
  questions.mapM (debug_rag_chain retr llm)

/-! ### Startup configuration -/

/-- The process environment and filesystem state consumed during setup:
credentials from the environment, the documents found under the source
directory, and the chunking parameters (treated as external configuration per
spec section 9). -/
structure RawConfig where
  groq_api_key : Option (List Char)
  google_api_key : Option (List Char)
  docs : List Document
  chunk_size : Nat
  chunk_overlap : Nat
deriving DecidableEq

/-- Modelled from the spec (sections 6 and 7): the hosted generation client
(`ChatGroq`) requires its credential at construction time. -/
def initChatGroq (key : Option (List Char)) : Except String Unit :=
  match key with
  | none => Except.error "missing generation credential"
  | some _ => Except.ok ()

/-- Modelled from the spec (sections 6 and 7): the hosted embedding client
requires its credential during setup. -/
def initEmbeddings (key : Option (List Char)) : Except String Unit :=
  match key with
  | none => Except.error "missing embedding credential"
  | some _ => Except.ok ()

/-- Modelled from the spec (section 4.1): the chunker rejects a non-positive
maximum length and an overlap that is not smaller than the maximum length. -/
def initSplitter (size overlap : Nat) : Except String Unit :=
  if size = 0 then Except.error "invalid chunk size"
  else if size ≤ overlap then Except.error "chunk overlap must be smaller than chunk size"
  else Except.ok ()

/-- Modelled from the spec (section 7): building the vector index over an
empty corpus (empty source directory) fails during setup. -/
def buildVectorIndex (chunks : List Document) : Except String (List Document) :=
  if chunks.isEmpty then Except.error "empty source directory" else Except.ok chunks

/-- From `setup_components` (`improved_rag_debug.py` lines 21-55) and the
setup part of `fix_rag_chain` (lines 21-97): construct the LLM client, the
embedding client and the splitter, load the documents, split them and build
the vector index — all of it before any question is handled. -/
def setup_components (cfg : RawConfig) : Except String (List Document) := do
  let _ ← initChatGroq cfg.groq_api_key
  let _ ← initEmbeddings cfg.google_api_key
  let _ ← initSplitter cfg.chunk_size cfg.chunk_overlap
  let chunks := split_documents cfg.chunk_size cfg.chunk_overlap cfg.docs
  buildVectorIndex chunks

/-- The whole fix script run: setup, then the question loop. -/
def runFixScript (cfg : RawConfig) (retr : List Char → Except String (List Document))
    (llm : List Char → Except String (List Char)) (questions : List (List Char)) :
    Except String (List (Option (List Char))) := do
  let _ ← setup_components cfg
  pure (test_fixed_rag retr llm questions)

/-- The whole debug script run: setup, then the question loop. -/
def runDebugScript (cfg : RawConfig)
    (retr : RetrieverConfig → List Char → Except String (List Document))
    (llm : List Char → Except String (List Char)) (questions : List (List Char)) :
    Except String (List DebugReport) := do
  let _ ← setup_components cfg
  test_different_questions retr llm questions

/-- A configuration exhibiting one of the spec's startup error classes:
missing credentials, an empty source directory, or invalid chunk
parameters. -/
def invalidConfig (cfg : RawConfig) : Prop :=
  cfg.groq_api_key = none ∨ cfg.google_api_key = none ∨ cfg.docs = [] ∨
    cfg.chunk_size = 0 ∨ cfg.chunk_size ≤ cfg.chunk_overlap

/-! ### Auxiliary facts -/

theorem intercalate_eq_joinedBy (sep : List Char) :
    ∀ xs : List (List Char), List.intercalate sep xs = joinedBy sep xs
  | [] => by simp [List.intercalate, joinedBy]
  | [x] => by simp [List.intercalate, joinedBy]
  | x :: y :: t => by
    rw [joinedBy, ← intercalate_eq_joinedBy sep (y :: t)]
    simp [List.intercalate, List.intersperse, List.append_assoc]

theorem setup_components_error (cfg : RawConfig) (h : invalidConfig cfg) :
    ∃ e, setup_components cfg = Except.error e := by
  unfold setup_components
  cases hg : cfg.groq_api_key with
  | none => exact ⟨_, by simp only [hg]; rfl⟩
  | some k =>
    cases hk : cfg.google_api_key with
    | none => exact ⟨_, by simp only [hg, hk]; rfl⟩
    | some k2 =>
      by_cases hs : cfg.chunk_size = 0
      · exact ⟨_, by simp only [hg, hk, hs]; rfl⟩
      · by_cases hso : cfg.chunk_size ≤ cfg.chunk_overlap
        · refine ⟨"chunk overlap must be smaller than chunk size", ?_⟩
          simp only [hg, hk, initSplitter, if_neg hs, if_pos hso]
          rfl
        · have hd : cfg.docs = [] := by
            rcases h with h | h | h | h | h
            · rw [hg] at h; simp at h
            · rw [hk] at h; simp at h
            · exact h
            · exact absurd h hs
            · exact absurd h hso
          refine ⟨"empty source directory", ?_⟩
          simp only [hg, hk, hd, initSplitter, if_neg hs, if_neg hso]
          rfl

/-! ### Claim theorems -/

/-- Claim C3: for every pair of adjacent chunks produced by the text splitter
from the same document, the two chunks share at least the configured overlap
length (200 characters) of content — the last 200 characters of each chunk
are exactly the first 200 characters of the next chunk. -/
theorem c3_adjacent_chunks_share_overlap (cs : List Char) :
    List.Chain' (sharesOverlap 200) (splitDoc 1000 200 cs) :=
  splitAux_chain 1000 200 (by norm_num) cs.length cs (splitDoc_fuel 1000 200 (by norm_num) cs)

/-- Claim C4: for every document, concatenating its chunks' non-overlapping
spans (each chunk minus the part it shares with the previous chunk)
reconstructs the original document content exactly. -/
theorem c4_chunking_reconstructs (cs : List Char) :
    dropOverlaps 200 (splitDoc 1000 200 cs) = cs :=
  dropOverlaps_splitAux 1000 200 (by norm_num) cs.length cs
    (splitDoc_fuel 1000 200 (by norm_num) cs)

/-- Claim C5: every chunk produced by the text splitter has length (as
measured by the configured length function, `len`) at most the configured
maximum chunk length of 1000 characters. -/
theorem c5_chunk_length_le (docs : List Document) :
    ∀ c ∈ split_documents 1000 200 docs, c.page_content.length ≤ 1000 := by
  intro c hc
  unfold split_documents at hc
  rw [List.mem_flatten] at hc
  obtain ⟨l, hl, hcl⟩ := hc
  rw [List.mem_map] at hl
  obtain ⟨d, _, rfl⟩ := hl
  rw [List.mem_map] at hcl
  obtain ⟨chunk, hchunk, rfl⟩ := hcl
  exact splitAux_length_le 1000 (1000 - 200) d.page_content.length d.page_content
    (splitDoc_fuel 1000 200 (by norm_num) d.page_content) chunk hchunk

/-- Witness for C5 at a concrete one-document corpus. -/
theorem c5_chunk_length_le_witness :
    (⟨"hello".toList, "a.pdf".toList, 0⟩ : Document) ∈
        split_documents 1000 200 [⟨"hello".toList, "a.pdf".toList, 0⟩] ∧
      (⟨"hello".toList, "a.pdf".toList, 0⟩ : Document).page_content.length ≤ 1000 :=
  ⟨by decide,
    c5_chunk_length_le [⟨"hello".toList, "a.pdf".toList, 0⟩]
      ⟨"hello".toList, "a.pdf".toList, 0⟩ (by decide)⟩

/-- Claim C6: retrieval with the k=5 similarity configuration returns at most
5 chunks, ordered by descending similarity score to the query, and every
returned chunk is an element of the chunk set produced by splitting the
loaded corpus. -/
theorem c6_retrieval_k5 (score : Document → Int) (docs : List Document) :
    (similaritySearch score 5 (split_documents 1000 200 docs)).length ≤ 5 ∧
      List.Sorted (fun a b => score b ≤ score a)
        (similaritySearch score 5 (split_documents 1000 200 docs)) ∧
      ∀ c ∈ similaritySearch score 5 (split_documents 1000 200 docs),
        c ∈ split_documents 1000 200 docs := by
  haveI : IsTotal Document fun a b => score b ≤ score a :=
    ⟨fun a b => le_total (score b) (score a)⟩
  haveI : IsTrans Document fun a b => score b ≤ score a :=
    ⟨fun _ _ _ hab hbc => le_trans hbc hab⟩
  unfold similaritySearch
  refine ⟨?_, ?_, ?_⟩
  · exact List.length_take_le 5 _
  · exact (List.sorted_insertionSort _ _).sublist (List.take_sublist _ _)
  · intro c hc
    exact (List.perm_insertionSort _ _).mem_iff.mp (List.take_subset _ _ hc)

/-- Witness for C6 at a concrete score function and corpus. -/
theorem c6_retrieval_k5_witness :
    (similaritySearch (fun _ => 0) 5
        (split_documents 1000 200 [⟨"doc".toList, "a.pdf".toList, 0⟩])).length ≤ 5 :=
  (c6_retrieval_k5 (fun _ => 0) [⟨"doc".toList, "a.pdf".toList, 0⟩]).1

/-- Claim C7: for every question string and every retrieved context, the
assembled prompt contains the question verbatim as a substring and contains
verbatim the string formed by joining the retrieved chunks' page contents
with the blank-line separator; this holds for the fixed prompt of
`fix_rag_chain.py` and for the improved prompt of `improved_rag_debug.py`. -/
theorem c7_prompt_contains_question_and_context (docs : List Document) (q : List Char) :
    (∃ a b, renderFixedPrompt (format_docs docs) q = a ++ q ++ b) ∧
      (∃ a b, renderFixedPrompt (format_docs docs) q = a ++ format_docs docs ++ b) ∧
      (∃ a b, renderImprovedPrompt (format_docs docs) q = a ++ q ++ b) ∧
      (∃ a b, renderImprovedPrompt (format_docs docs) q = a ++ format_docs docs ++ b) := by
  refine ⟨⟨fixedTemplateHead ++ format_docs docs ++ templateMid, templateTail, ?_⟩,
    ⟨fixedTemplateHead, templateMid ++ q ++ templateTail, ?_⟩,
    ⟨improvedTemplateHead ++ format_docs docs ++ templateMid, templateTail, ?_⟩,
    ⟨improvedTemplateHead, templateMid ++ q ++ templateTail, ?_⟩⟩ <;>
    simp [renderFixedPrompt, renderImprovedPrompt, List.append_assoc]

/-- Claim C9: when retrieval returns no chunks, `format_docs` returns the
empty string and prompt assembly still succeeds, producing the fixed template
with an empty context field; in general `format_docs docs` is exactly the
page contents of `docs` joined by the blank-line separator. -/
theorem c9_format_docs_join :
    format_docs [] = [] ∧
      (∀ q : List Char, renderFixedPrompt (format_docs []) q =
        fixedTemplateHead ++ templateMid ++ q ++ templateTail) ∧
      ∀ docs : List Document,
        format_docs docs = joinedBy blankLine (docs.map Document.page_content) := by
  refine ⟨rfl, ?_, ?_⟩
  · intro q
    simp [renderFixedPrompt, format_docs, List.intercalate]
  · intro docs
    exact intercalate_eq_joinedBy blankLine (docs.map Document.page_content)

/-- Counterexample to claim C1: in the debug script, an exception raised by
the retriever during the probe phase is caught nowhere — it propagates out of
`debug_rag_chain` and out of the top-level question loop, aborting the run
after the first question instead of yielding a `None` answer and continuing
with the remaining question. -/
theorem c1_counterexample :
    test_different_questions (fun _ _ => Except.error "network failure")
        (fun _ => Except.ok "fine".toList)
        ["What is LoRA?".toList, "How does fine-tuning work?".toList] =
      Except.error "network failure" := rfl

/-- Claim C1 (amended): in the fix script's top-level loop every question is
processed and any exception raised during retrieval or generation is caught
inside the loop, yielding a `None` answer for that question; in the debug
script only an exception of the final chain invocation is caught and turned
into a `None` answer — the loop body still returns a report — whereas an
exception raised by the retriever during the preliminary probes or the
best-configuration retrieval propagates out and aborts the run (see the
counterexample). -/
theorem c1_exceptions_caught_per_question :
    (∀ retr llm (questions : List (List Char)),
        (test_fixed_rag retr llm questions).length = questions.length) ∧
      (∀ retr llm (q : List Char) (e : String), retr q = Except.error e →
        fixLoopStep retr llm q = none) ∧
      (∀ retr llm (q : List Char) (e : String), fixChainInvoke retr llm q = Except.error e →
        fixLoopStep retr llm q = none) ∧
      ∀ retr llm (q : List Char) (e : String) probes docs,
        retriever_configs.mapM (probeConfig retr q) = Except.ok probes →
        retr bestConfig q = Except.ok docs →
        debugChainInvoke retr llm q = Except.error e →
        debug_rag_chain retr llm q =
          Except.ok ⟨probes, docs.length, (format_docs docs).length, none⟩ := by
  refine ⟨?_, ?_, ?_, ?_⟩
  · intro retr llm questions
    simp [test_fixed_rag]
  · intro retr llm q e h
    unfold fixLoopStep
    rw [h]
    rfl
  · intro retr llm q e h
    cases hr : retr q with
    | error e2 =>
      unfold fixLoopStep
      rw [hr]
      rfl
    | ok docs =>
      unfold fixLoopStep
      simp only [hr, h]
      rfl
  · intro retr llm q e probes docs hm hd hinv
    unfold debug_rag_chain
    rw [hm]
    simp only [hd, hinv]
    rfl

/-- Witness for the amended C1: a retriever that always fails yields a `None`
answer for the question while the fix loop itself returns normally. -/
theorem c1_exceptions_caught_per_question_witness :
    (fun _ : List Char => (Except.error "boom" : Except String (List Document))) "Q".toList =
        Except.error "boom" ∧
      fixLoopStep (fun _ => Except.error "boom") (fun _ => Except.ok []) "Q".toList = none :=
  ⟨rfl, c1_exceptions_caught_per_question.2.1 _ _ _ "boom" rfl⟩

/-- Claim C2: a configuration error — missing credentials, an empty source
directory, or invalid chunk parameters — is detected during component setup:
both script runs fail with the same startup error regardless of the question
list, so the error never surfaces during per-question processing. -/
theorem c2_config_errors_at_startup (cfg : RawConfig) (h : invalidConfig cfg) :
    ∃ e, (∀ retr llm questions, runFixScript cfg retr llm questions = Except.error e) ∧
      ∀ retr llm questions, runDebugScript cfg retr llm questions = Except.error e := by
  obtain ⟨e, he⟩ := setup_components_error cfg h
  refine ⟨e, fun retr llm questions => ?_, fun retr llm questions => ?_⟩
  · unfold runFixScript
    rw [he]
    rfl
  · unfold runDebugScript
    rw [he]
    rfl

/-- Witness for C2 at a configuration with a missing generation credential
and an empty source directory. -/
theorem c2_config_errors_at_startup_witness :
    invalidConfig ⟨none, some "k".toList, [], 1000, 200⟩ ∧
      ∃ e, (∀ retr llm questions,
          runFixScript ⟨none, some "k".toList, [], 1000, 200⟩ retr llm questions =
            Except.error e) ∧
        ∀ retr llm questions,
          runDebugScript ⟨none, some "k".toList, [], 1000, 200⟩ retr llm questions =
            Except.error e :=
  ⟨Or.inl rfl, c2_config_errors_at_startup _ (Or.inl rfl)⟩

/-- Claim C8: for every question, the debug routine queries the retriever
under exactly the four hard-coded configurations of `retriever_configs`, in
source order — similarity with k=3, k=5 and k=7, then mmr with k=3 —
reporting the result count and the preview of the first result for each, and
then produces the final answer with the k=5 similarity configuration through
the improved-prompt chain. -/
theorem c8_debug_probe_order (retrF : RetrieverConfig → List Char → List Document)
    (llmF : List Char → List Char) (q : List Char) :
    debug_rag_chain (fun c q => Except.ok (retrF c q)) (fun p => Except.ok (llmF p)) q =
      Except.ok
        ⟨[⟨⟨3, SearchType.similarity⟩, (retrF ⟨3, SearchType.similarity⟩ q).length,
            previewOf (retrF ⟨3, SearchType.similarity⟩ q)⟩,
          ⟨⟨5, SearchType.similarity⟩, (retrF ⟨5, SearchType.similarity⟩ q).length,
            previewOf (retrF ⟨5, SearchType.similarity⟩ q)⟩,
          ⟨⟨7, SearchType.similarity⟩, (retrF ⟨7, SearchType.similarity⟩ q).length,
            previewOf (retrF ⟨7, SearchType.similarity⟩ q)⟩,
          ⟨⟨3, SearchType.mmr⟩, (retrF ⟨3, SearchType.mmr⟩ q).length,
            previewOf (retrF ⟨3, SearchType.mmr⟩ q)⟩],
          (retrF bestConfig q).length,
          (format_docs (retrF bestConfig q)).length,
          some (llmF (renderImprovedPrompt (format_docs (retrF bestConfig q)) q))⟩ := rfl

/-- Claim C10: in both assembled chains the caller's question flows unchanged
to both consumers: the retriever is queried with exactly the caller's string,
and the very same string is substituted verbatim into the question slot of
the prompt; moreover the chain consults the retriever only at that string, so
no rewriting, truncation or normalization is applied to the question. -/
theorem c10_question_flows_unchanged :
    (∀ retr llm (q : List Char) docs, retr q = Except.ok docs →
        fixChainInvoke retr llm q =
          llm (fixedTemplateHead ++ format_docs docs ++ templateMid ++ q ++ templateTail)) ∧
      (∀ retr retr2 llm (q : List Char), retr q = retr2 q →
        fixChainInvoke retr llm q = fixChainInvoke retr2 llm q) ∧
      (∀ retr llm (q : List Char) docs, retr bestConfig q = Except.ok docs →
        debugChainInvoke retr llm q =
          llm (improvedTemplateHead ++ format_docs docs ++ templateMid ++ q ++ templateTail)) ∧
      ∀ retr retr2 llm (q : List Char), retr bestConfig q = retr2 bestConfig q →
        debugChainInvoke retr llm q = debugChainInvoke retr2 llm q := by
  refine ⟨?_, ?_, ?_, ?_⟩
  · intro retr llm q docs h
    unfold fixChainInvoke
    rw [h]
    rfl
  · intro retr retr2 llm q h
    unfold fixChainInvoke
    rw [h]
  · intro retr llm q docs h
    unfold debugChainInvoke
    rw [h]
    rfl
  · intro retr retr2 llm q h
    unfold debugChainInvoke
    rw [h]

/-- Witness for C10: with a retriever returning no documents and an identity
LLM, the fixed chain produces exactly the prompt with the question spliced in
verbatim. -/
theorem c10_question_flows_unchanged_witness :
    (fun _ : List Char => (Except.ok [] : Except String (List Document))) "Q".toList =
        Except.ok [] ∧
      fixChainInvoke (fun _ => Except.ok []) (fun p => Except.ok p) "Q".toList =
        Except.ok (fixedTemplateHead ++ format_docs [] ++ templateMid ++ "Q".toList ++
          templateTail) :=
  ⟨rfl, c10_question_flows_unchanged.1 (fun _ => Except.ok []) (fun p => Except.ok p)
    "Q".toList [] rfl⟩
